import Mathlib

/-!
Shallow embedding of `uc_intg_steam/client.py` (the Steam polling/caching
client): transport error classification, the module-level data/artwork
caches, and the two normalizer-plus-cache operations
`get_currently_playing` and `get_online_friends`.

HTTP transport is abstracted: each operation receives the raw HTTP
outcome(s) the network would have produced (`HttpResult`), and the
embedding reproduces the client's classification and handling of them.
-/

namespace SteamVerify

/-- Python's substring test `pat in s` on character lists. -/
def charsContain (pat : List Char) : List Char → Bool
  | [] => pat.isEmpty
  | c :: t => List.isPrefixOf pat (c :: t) || charsContain pat t

/-- Python's substring test `pat in s` for strings. -/
def containsSubstr (s pat : String) : Bool :=
  charsContain pat.data s.data

/-- `SteamAPIError` from client.py: an exception carrying a message. -/
structure SteamAPIError where
  msg : String
deriving Repr, DecidableEq

/-- Raw outcome of one HTTP GET: a status code with a (decoded) body,
an `aiohttp.ClientError`, or any other exception during the request. -/
inductive HttpResult (α : Type) where
  | status (code : Nat) (body : α)
  | clientError (msg : String)
  | otherExc (msg : String)
deriving Repr

/-- `SteamClient.__init__`: the per-instance state is just the credentials
(the session and throttler carry no data relevant to response handling). -/
structure SteamClient where
  api_key : String
  steam_id : String
deriving Repr, DecidableEq

/-- `SteamClient._make_request`: classify the HTTP outcome into a decoded
body or a `SteamAPIError`.  In the source, the `SteamAPIError`s raised for
non-200 statuses inside the `try` block are themselves caught by the
trailing `except Exception` clause and re-raised wrapped in
"Unexpected error: ", which the embedding reproduces. -/
def make_request {α : Type} (r : HttpResult α) : Except SteamAPIError α :=
  match r with
  | .status c body =>
      if c = 200 then .ok body
      else if c = 401 then
        .error ⟨"Unexpected error: Invalid API key"⟩
      else if c = 403 then
        .error ⟨"Unexpected error: Access denied - check Steam ID and privacy settings"⟩
      else if c = 502 ∨ c = 503 ∨ c = 504 then
        .error ⟨"Unexpected error: Steam servers temporarily unavailable (HTTP " ++ toString c ++ ")"⟩
      else
        .error ⟨"Unexpected error: API request failed with status " ++ toString c⟩
  | .clientError m => .error ⟨"Network error: " ++ m⟩
  | .otherExc m => .error ⟨"Unexpected error: " ++ m⟩

/-- One player dict from a GetPlayerSummaries response; optional fields
are the keys the client reads with `.get(...)` or tests with `in`. -/
structure Player where
  steamid : String
  personastate : Option Nat
  gameid : Option String
  gameextrainfo : Option String
  personaname : Option String
deriving Repr, DecidableEq

/-- Decoded body of a GetPlayerSummaries call; `players?` is `none` when
the payload lacks the `response`/`players` shape the client checks for. -/
structure SummariesPayload where
  players? : Option (List Player)
deriving Repr, DecidableEq

/-- Decoded body of a GetFriendList call; `friends?` is `none` when the
payload lacks the `friendslist`/`friends` shape, otherwise the list of
friend steamids the client extracts. -/
structure FriendsPayload where
  friends? : Option (List String)
deriving Repr, DecidableEq

/-- The `game_data` dict built in `get_currently_playing`. -/
structure GameData where
  appid : String
  name : String
  personastate : Nat
deriving Repr, DecidableEq

/-- The `friend_info` dict built in `get_online_friends`. -/
structure FriendInfo where
  steamid : String
  personaname : String
  personastate : Nat
  gameextrainfo : Option String
  gameid : Option String
deriving Repr, DecidableEq

/-- Return value of `get_currently_playing`: `(game_data, image_url)` or
`(None, None)`. -/
abbrev PlayingResult := Option GameData × Option String

/-- The module-level mutable state: `STEAM_DATA_CACHE` (fields
`currently_playing` and `friends_data`, both initially `None`) and
`STEAM_ARTWORK_CACHE` (a dict from game name to artwork URL, as an
association list).  These are module globals in the source, shared by
every `SteamClient` instance, so the embedding threads one such state
through all operations regardless of which client performs them. -/
structure CacheState where
  currently_playing : Option PlayingResult
  friends_data : Option (List FriendInfo)
  artwork : List (String × String)
deriving Repr, DecidableEq

/-- The initial module state: both data-cache entries `None`, artwork
cache empty. -/
def initialCache : CacheState := ⟨none, none, []⟩

/-- Dict lookup in `STEAM_ARTWORK_CACHE`. -/
def awLookup (c : List (String × String)) (k : String) : Option String :=
  match c.find? (fun p => p.1 == k) with
  | some p => some p.2
  | none => none

/-- The URL cached by `get_currently_playing` for a game's artwork. -/
def libraryArtworkUrl (appid : String) : String :=
  "https://cdn.cloudflare.steamstatic.com/steam/apps/" ++ appid ++ "/library_600x900.jpg"

/-- `SteamClient.get_game_image_url` (static helper). -/
def get_game_image_url (appid : String) : String :=
  "https://cdn.cloudflare.steamstatic.com/steam/apps/" ++ appid ++ "/header.jpg"

/-- The `except SteamAPIError` guard in `get_currently_playing` and
`get_online_friends`: `"temporarily unavailable" in str(e) or "502" in
str(e) or "503" in str(e)`. -/
def isTransientMsg (m : String) : Bool :=
  containsSubstr m "temporarily unavailable" || containsSubstr m "502" ||
    containsSubstr m "503"

/-- The guard in `get_friend_list`: `"403" in str(e) or "Forbidden" in
str(e) or "Access denied" in str(e)`. -/
def isAccessDeniedMsg (m : String) : Bool :=
  containsSubstr m "403" || containsSubstr m "Forbidden" ||
    containsSubstr m "Access denied"

/-- Python truthiness of `STEAM_DATA_CACHE["friends_data"]` combined with
the `return cached / return []` pattern: a non-empty cached list is
returned, `None` or a cached empty list falls through to `[]`. -/
def truthyFriends : Option (List FriendInfo) → List FriendInfo
  | some (x :: xs) => x :: xs
  | _ => []

/-- `SteamClient.get_currently_playing`.  `resp` is the HTTP outcome of
the single GetPlayerSummaries call the method issues.  Returns the
`(game_data, image_url)` pair and the updated module state.  A cached
`currently_playing` tuple is always truthy in Python (even `(None,
None)`), so the cache-fallback branches test only for presence
(`Option.getD`). -/
def get_currently_playing (cl : SteamClient) (st : CacheState)
    (resp : HttpResult SummariesPayload) : PlayingResult × CacheState :=
  match make_request resp with
  | .error e =>
      if isTransientMsg e.msg then
        (st.currently_playing.getD (none, none), st)
      else
        ((none, none), st)
  | .ok data =>
      match data.players? with
      | none => (st.currently_playing.getD (none, none), st)
      | some [] => (st.currently_playing.getD (none, none), st)
      | some (player :: _) =>
          match player.gameid, player.gameextrainfo with
          | some appid, some game_name =>
              let found :=
                match awLookup st.artwork game_name with
                | some u => (u, st.artwork)
                | none =>
                    (libraryArtworkUrl appid,
                      (game_name, libraryArtworkUrl appid) :: st.artwork)
              let game_data : GameData :=
                ⟨appid, game_name, player.personastate.getD 0⟩
              let result : PlayingResult := (some game_data, some found.1)
              (result, { st with artwork := found.2,
                                 currently_playing := some result })
          | _, _ =>
              let result : PlayingResult := (none, none)
              (result, { st with currently_playing := some result })

/-- `SteamClient.get_friend_list`: issue the GetFriendList call; convert
an access-denied failure into a synthetic empty friend list. -/
def get_friend_list (cl : SteamClient) (resp : HttpResult FriendsPayload) :
    Except SteamAPIError FriendsPayload :=
  match make_request resp with
  | .ok d => .ok d
  | .error e =>
      if isAccessDeniedMsg e.msg then .ok ⟨some []⟩
      else .error e

/-- Number of iterations of `range(0, n, batch_size)` with
`batch_size = 100`. -/
def numBatches (n : Nat) : Nat := (n + 99) / 100

/-- The successive `friend_steam_ids[i:i + batch_size]` slices requested
by the batch loop. -/
def chunks (ids : List String) : List (List String) :=
  (List.range (numBatches ids.length)).map fun j => (ids.drop (100 * j)).take 100

/-- The body of one iteration of the batch loop in `get_online_friends`:
a failed or malformed batch contributes nothing (`continue`); a
well-shaped one contributes its players with `personastate > 0`, mapped
to `friend_info` dicts, in order. -/
def processBatch (r : HttpResult SummariesPayload) : List FriendInfo :=
  match make_request r with
  | .error _ => []
  | .ok d =>
      match d.players? with
      | none => []
      | some players =>
          (players.filter (fun p => p.personastate.getD 0 > 0)).map fun p =>
            ⟨p.steamid, p.personaname.getD "Unknown", p.personastate.getD 0,
              p.gameextrainfo, p.gameid⟩

/-- `SteamClient.get_online_friends`.  `flResp` is the HTTP outcome of
the GetFriendList call; `batchResp j` is the HTTP outcome of the `j`-th
per-batch GetPlayerSummaries call.  Returns the online-friends list and
the updated module state. -/
def get_online_friends (cl : SteamClient) (st : CacheState)
    (flResp : HttpResult FriendsPayload)
    (batchResp : Nat → HttpResult SummariesPayload) :
    List FriendInfo × CacheState :=
  match get_friend_list cl flResp with
  | .error e =>
      ((if isTransientMsg e.msg then truthyFriends st.friends_data else []), st)
  | .ok fd =>
      match fd.friends? with
      | none => (truthyFriends st.friends_data, st)
      | some [] => ([], { st with friends_data := some [] })
      | some (i :: is) =>
          let all := (List.range (numBatches (i :: is).length)).flatMap
            fun j => processBatch (batchResp j)
          (all, { st with friends_data := some all })

/-- Concrete scenario objects for closed statements: two clients with
different credentials. -/
def clientA : SteamClient := ⟨"keyA", "idA"⟩

/-- Second client, distinct credentials. -/
def clientB : SteamClient := ⟨"keyB", "idB"⟩

/-- A successful player-summary response reporting a running game. -/
def gameResp : HttpResult SummariesPayload :=
  .status 200 ⟨some [⟨"sidA", some 1, some "10", some "Portal", some "Bob"⟩]⟩

/-- Module state after client A's successful poll from the initial
state. -/
def stAfterA : CacheState := (get_currently_playing clientA initialCache gameResp).2

/-- Result of client A's successful poll from the initial state. -/
def resultA : PlayingResult := (get_currently_playing clientA initialCache gameResp).1

/-- `SteamClient.get_persona_state_text`. -/
def get_persona_state_text (state : Nat) : String :=
  if state = 0 then "Offline"
  else if state = 1 then "Online"
  else if state = 2 then "Busy"
  else if state = 3 then "Away"
  else if state = 4 then "Snooze"
  else if state = 5 then "Looking to trade"
  else if state = 6 then "Looking to play"
  else "Unknown"

end SteamVerify

namespace SteamVerify

/-! ### Helper lemmas -/

theorem gcp_error_eq (cl : SteamClient) (st : CacheState)
    (resp : HttpResult SummariesPayload) (e : SteamAPIError)
    (he : make_request resp = .error e) :
    get_currently_playing cl st resp =
      if isTransientMsg e.msg then (st.currently_playing.getD (none, none), st)
      else ((none, none), st) := by
  unfold get_currently_playing
  rw [he]

theorem gof_error_eq (cl : SteamClient) (st : CacheState)
    (fl : HttpResult FriendsPayload) (bs : Nat → HttpResult SummariesPayload)
    (e : SteamAPIError) (he : get_friend_list cl fl = .error e) :
    get_online_friends cl st fl bs =
      ((if isTransientMsg e.msg then truthyFriends st.friends_data else []), st) := by
  unfold get_online_friends
  rw [he]

theorem get_friend_list_error (cl : SteamClient) (fl : HttpResult FriendsPayload)
    (e : SteamAPIError) (he : make_request fl = .error e)
    (hd : isAccessDeniedMsg e.msg = false) :
    get_friend_list cl fl = .error e := by
  unfold get_friend_list
  rw [he]
  simp [hd]

theorem transient_codes {α : Type} (c : Nat) (body : α)
    (hc : c = 502 ∨ c = 503 ∨ c = 504) :
    ∃ e, make_request (.status c body) = .error e ∧ isTransientMsg e.msg = true ∧
      isAccessDeniedMsg e.msg = false := by
  rcases hc with rfl | rfl | rfl
  · exact ⟨_, rfl, by decide, by decide⟩
  · exact ⟨_, rfl, by decide, by decide⟩
  · exact ⟨_, rfl, by decide, by decide⟩

theorem gcp_transient_result (cl : SteamClient) (st : CacheState)
    (code : Nat) (sBody : SummariesPayload)
    (hc : code = 502 ∨ code = 503 ∨ code = 504) :
    get_currently_playing cl st (.status code sBody) =
      (st.currently_playing.getD (none, none), st) := by
  obtain ⟨e, he, ht, -⟩ := transient_codes code sBody hc
  rw [gcp_error_eq cl st _ e he, ht]
  simp

theorem gof_transient_result (cl : SteamClient) (st : CacheState)
    (code : Nat) (fBody : FriendsPayload)
    (bs : Nat → HttpResult SummariesPayload)
    (hc : code = 502 ∨ code = 503 ∨ code = 504) :
    get_online_friends cl st (.status code fBody) bs =
      (truthyFriends st.friends_data, st) := by
  obtain ⟨e, he, ht, hd⟩ := transient_codes code fBody hc
  rw [gof_error_eq cl st _ bs e (get_friend_list_error cl _ e he hd), ht]
  simp

theorem gcp_ok_cache_result (cl : SteamClient) (st : CacheState)
    (resp : HttpResult SummariesPayload) (payload : SummariesPayload)
    (h : make_request resp = .ok payload) :
    ((get_currently_playing cl st resp).2).currently_playing.getD (none, none) =
      (get_currently_playing cl st resp).1 := by
  unfold get_currently_playing
  rw [h]
  rcases payload with ⟨_ | ⟨_ | ⟨p, ps⟩⟩⟩
  · cases st.currently_playing <;> simp
  · cases st.currently_playing <;> simp
  · rcases hg : p.gameid with _ | appid <;>
      rcases he : p.gameextrainfo with _ | nm <;> simp [hg, he]

end SteamVerify

namespace SteamVerify

/-- C1: for either view, a poll that fails with a 5xx transient upstream
error returns exactly the previously cached value when the view's cache
entry is populated, and the view's empty value (absent game / empty
friend list) when it is not; in particular, after any successful poll a
transient-failure poll returns the first poll's result. -/
theorem C1_transient_serves_cache (cl : SteamClient) (st : CacheState)
    (code : Nat) (sBody : SummariesPayload) (fBody : FriendsPayload)
    (bs : Nat → HttpResult SummariesPayload)
    (hc : code = 502 ∨ code = 503 ∨ code = 504) :
    (∀ r, st.currently_playing = some r →
        (get_currently_playing cl st (.status code sBody)).1 = r) ∧
    (st.currently_playing = none →
        (get_currently_playing cl st (.status code sBody)).1 = (none, none)) ∧
    (∀ l, st.friends_data = some l →
        (get_online_friends cl st (.status code fBody) bs).1 = l) ∧
    (st.friends_data = none →
        (get_online_friends cl st (.status code fBody) bs).1 = []) ∧
    (∀ resp1 payload, make_request resp1 = .ok payload →
        (get_currently_playing cl
            (get_currently_playing cl st resp1).2 (.status code sBody)).1 =
          (get_currently_playing cl st resp1).1) := by
  refine ⟨?_, ?_, ?_, ?_, ?_⟩
  · intro r hr
    rw [gcp_transient_result cl st code sBody hc]
    simp [hr]
  · intro hn
    rw [gcp_transient_result cl st code sBody hc]
    simp [hn]
  · intro l hl
    rw [gof_transient_result cl st code fBody bs hc]
    cases l <;> simp [truthyFriends, hl]
  · intro hn
    rw [gof_transient_result cl st code fBody bs hc]
    simp [truthyFriends, hn]
  · intro resp1 payload h1
    rw [gcp_transient_result cl _ code sBody hc]
    exact gcp_ok_cache_result cl st resp1 payload h1

/-- C2: both operations are total — every transport outcome yields a
value — and on any error that is not the transient-with-cache case the
currently-playing operation returns the absent pair and the friends
operation returns the empty list. -/
theorem C2_never_raises_degrades (cl : SteamClient) (st : CacheState)
    (resp : HttpResult SummariesPayload) (flResp : HttpResult FriendsPayload)
    (bs : Nat → HttpResult SummariesPayload) :
    (∃ r st1, get_currently_playing cl st resp = (r, st1)) ∧
    (∃ l st2, get_online_friends cl st flResp bs = (l, st2)) ∧
    (∀ e, make_request resp = .error e →
       (isTransientMsg e.msg = false ∨ st.currently_playing = none) →
         (get_currently_playing cl st resp).1 = (none, none)) ∧
    (∀ e, make_request flResp = .error e →
       (isTransientMsg e.msg = false ∨ truthyFriends st.friends_data = []) →
         (get_online_friends cl st flResp bs).1 = []) := by
  refine ⟨⟨_, _, rfl⟩, ⟨_, _, rfl⟩, ?_, ?_⟩
  · intro e he h
    rw [gcp_error_eq cl st resp e he]
    rcases h with hf | hn
    · simp [hf]
    · by_cases ht : isTransientMsg e.msg = true <;> simp [ht, hn]
  · intro e he h
    by_cases hd : isAccessDeniedMsg e.msg = true
    · have hfl : get_friend_list cl flResp = .ok ⟨some []⟩ := by
        unfold get_friend_list
        rw [he]
        simp [hd]
      unfold get_online_friends
      rw [hfl]
    · have hfl := get_friend_list_error cl flResp e he (by simpa using hd)
      rw [gof_error_eq cl st flResp bs e hfl]
      rcases h with hf | ht
      · simp [hf]
      · by_cases htr : isTransientMsg e.msg = true <;> simp [htr, ht]

/-- C7: a 403 (access denied) on the friend-list call makes
get_online_friends return the empty list, for every cache state. -/
theorem C7_friends_403_empty (cl : SteamClient) (st : CacheState)
    (bs : Nat → HttpResult SummariesPayload) (body : FriendsPayload) :
    (get_online_friends cl st (.status 403 body) bs).1 = [] := by
  have he : make_request (α := FriendsPayload) (.status 403 body) =
      .error ⟨"Unexpected error: Access denied - check Steam ID and privacy settings"⟩ := rfl
  have hda : isAccessDeniedMsg
      "Unexpected error: Access denied - check Steam ID and privacy settings" = true := by
    decide
  have hfl : get_friend_list cl (.status 403 body) = .ok ⟨some []⟩ := by
    unfold get_friend_list
    rw [he]
    simp [hda]
  unfold get_online_friends
  rw [hfl]

end SteamVerify

namespace SteamVerify

/-- C3 counterexample: with a populated playing cache, a syntactically
successful response with an empty player list returns the cached game,
not the absent value. -/
theorem C3_counterexample :
    (get_currently_playing ⟨"k", "s"⟩
       ⟨some (some ⟨"10", "Portal", 1⟩, some "u"), none, []⟩
       (.status 200 ⟨some []⟩)).1 ≠ (none, none) := by
  decide

/-- C3 (amended): on a syntactically successful response whose player
list is empty or missing, get_currently_playing returns the cached value
when one exists and the absent value otherwise, leaving the module state
unchanged, and never raises. -/
theorem C3_empty_players_serve_cache (cl : SteamClient) (st : CacheState)
    (resp : HttpResult SummariesPayload) (payload : SummariesPayload)
    (h : make_request resp = .ok payload)
    (hp : payload.players? = none ∨ payload.players? = some []) :
    get_currently_playing cl st resp =
      (st.currently_playing.getD (none, none), st) := by
  unfold get_currently_playing
  rw [h]
  rcases hp with hp | hp <;> simp [hp]

/-- Witness for the amended C3 at a concrete input: empty player list,
empty module state. -/
theorem C3_witness :
    (make_request (α := SummariesPayload) (.status 200 ⟨some []⟩)
        = .ok ⟨some []⟩) ∧
    get_currently_playing ⟨"k", "s"⟩ initialCache (.status 200 ⟨some []⟩)
      = ((none, none), initialCache) :=
  ⟨rfl, by
    have h := C3_empty_players_serve_cache ⟨"k", "s"⟩ initialCache
      (.status 200 ⟨some []⟩) ⟨some []⟩ rfl (Or.inr rfl)
    simpa [initialCache] using h⟩

/-- C4 counterexample: on a fresh artwork cache, the artwork URL built
for a playing game uses the library_600x900.jpg template, not the
header.jpg template of get_game_image_url. -/
theorem C4_counterexample :
    ((get_currently_playing ⟨"k", "s"⟩ initialCache
        (.status 200 ⟨some [⟨"sid", some 1, some "10", some "Portal", some "Bob"⟩]⟩)).1.2
      = some (libraryArtworkUrl "10")) ∧
    ((get_currently_playing ⟨"k", "s"⟩ initialCache
        (.status 200 ⟨some [⟨"sid", some 1, some "10", some "Portal", some "Bob"⟩]⟩)).1.2
      ≠ some (get_game_image_url "10")) := by
  constructor <;> decide

/-- C4 (amended): when the first player entry carries a game id and a
game name and the artwork cache has no entry for that name, the returned
artwork URL is the library_600x900.jpg template applied to the id; the
header.jpg template belongs to the separate static helper. -/
theorem C4_artwork_library_template (cl : SteamClient) (st : CacheState)
    (resp : HttpResult SummariesPayload) (payload : SummariesPayload)
    (p : Player) (ps : List Player) (appid nm : String)
    (h : make_request resp = .ok payload)
    (hp : payload.players? = some (p :: ps))
    (hg : p.gameid = some appid)
    (hn : p.gameextrainfo = some nm)
    (hmiss : awLookup st.artwork nm = none) :
    (get_currently_playing cl st resp).1.2 = some (libraryArtworkUrl appid) := by
  unfold get_currently_playing
  rw [h]
  simp [hp, hg, hn, hmiss]

/-- Witness for the amended C4 at a concrete input. -/
theorem C4_witness :
    (awLookup ([] : List (String × String)) "Portal" = none) ∧
    (get_currently_playing ⟨"k", "s"⟩ initialCache
        (.status 200 ⟨some [⟨"sid", some 1, some "10", some "Portal", some "Bob"⟩]⟩)).1.2
      = some (libraryArtworkUrl "10") :=
  ⟨rfl,
   C4_artwork_library_template ⟨"k", "s"⟩ initialCache
     (.status 200 ⟨some [⟨"sid", some 1, some "10", some "Portal", some "Bob"⟩]⟩)
     ⟨some [⟨"sid", some 1, some "10", some "Portal", some "Bob"⟩]⟩
     ⟨"sid", some 1, some "10", some "Portal", some "Bob"⟩ [] "10" "Portal"
     rfl rfl rfl rfl rfl⟩

/-- C5 counterexample: a 403 (not syntactically successful) friend-list
response assigns the friends cache entry the empty list, replacing a
previously cached non-empty value. -/
theorem C5_counterexample :
    ((get_online_friends ⟨"k", "s"⟩ ⟨none, some [⟨"f1", "Ann", 1, none, none⟩], []⟩
        (.status 403 ⟨none⟩) (fun _ => .status 503 ⟨none⟩)).2.friends_data
      = some []) ∧
    some ([] : List FriendInfo) ≠ some [⟨"f1", "Ann", 1, none, none⟩] := by
  constructor <;> decide

/-- C5 (amended): no error response ever assigns either cache entry —
in particular no transient-error response does — with one exception the
counterexample forces: an access-denied friend-list failure is converted
to an empty friend list and assigns the friends cache the empty list. -/
theorem C5_cache_assignment_policy (cl : SteamClient) (st : CacheState)
    (resp : HttpResult SummariesPayload) (fl : HttpResult FriendsPayload)
    (bs : Nat → HttpResult SummariesPayload) :
    (∀ e, make_request resp = .error e →
        (get_currently_playing cl st resp).2 = st) ∧
    (∀ e, get_friend_list cl fl = .error e →
        (get_online_friends cl st fl bs).2 = st) ∧
    (∀ body, (get_online_friends cl st (.status 403 body) bs).2.friends_data
        = some []) := by
  refine ⟨?_, ?_, ?_⟩
  · intro e he
    rw [gcp_error_eq cl st resp e he]
    by_cases ht : isTransientMsg e.msg = true <;> simp [ht]
  · intro e he
    rw [gof_error_eq cl st fl bs e he]
  · intro body
    have hda : isAccessDeniedMsg
        "Unexpected error: Access denied - check Steam ID and privacy settings" = true := by
      decide
    have he : make_request (α := FriendsPayload) (.status 403 body) =
        .error ⟨"Unexpected error: Access denied - check Steam ID and privacy settings"⟩ := rfl
    have hfl : get_friend_list cl (.status 403 body) = .ok ⟨some []⟩ := by
      unfold get_friend_list
      rw [he]
      simp [hda]
    unfold get_online_friends
    rw [hfl]

/-- Witness for the amended C5 at concrete inputs: a 401 failure leaves
the state unchanged on both views; a 403 friend-list failure sets the
friends cache to the empty list. -/
theorem C5_witness :
    ((get_currently_playing ⟨"k", "s"⟩
        ⟨none, some [⟨"f1", "Ann", 1, none, none⟩], []⟩ (.status 401 ⟨none⟩)).2
      = ⟨none, some [⟨"f1", "Ann", 1, none, none⟩], []⟩) ∧
    ((get_online_friends ⟨"k", "s"⟩
        ⟨none, some [⟨"f1", "Ann", 1, none, none⟩], []⟩ (.status 401 ⟨none⟩)
        (fun _ => .status 401 ⟨none⟩)).2
      = ⟨none, some [⟨"f1", "Ann", 1, none, none⟩], []⟩) ∧
    ((get_online_friends ⟨"k", "s"⟩
        ⟨none, some [⟨"f1", "Ann", 1, none, none⟩], []⟩ (.status 403 ⟨none⟩)
        (fun _ => .status 401 ⟨none⟩)).2.friends_data = some []) :=
  ⟨(C5_cache_assignment_policy ⟨"k", "s"⟩
      ⟨none, some [⟨"f1", "Ann", 1, none, none⟩], []⟩ (.status 401 ⟨none⟩)
      (.status 401 ⟨none⟩) (fun _ => .status 401 ⟨none⟩)).1
      ⟨"Unexpected error: Invalid API key"⟩ rfl,
   (C5_cache_assignment_policy ⟨"k", "s"⟩
      ⟨none, some [⟨"f1", "Ann", 1, none, none⟩], []⟩ (.status 401 ⟨none⟩)
      (.status 401 ⟨none⟩) (fun _ => .status 401 ⟨none⟩)).2.1
      ⟨"Unexpected error: Invalid API key"⟩ rfl,
   (C5_cache_assignment_policy ⟨"k", "s"⟩
      ⟨none, some [⟨"f1", "Ann", 1, none, none⟩], []⟩ (.status 401 ⟨none⟩)
      (.status 401 ⟨none⟩) (fun _ => .status 401 ⟨none⟩)).2.2 ⟨none⟩⟩

end SteamVerify

namespace SteamVerify

theorem processBatch_pos (r : HttpResult SummariesPayload) (f : FriendInfo)
    (hf : f ∈ processBatch r) : 0 < f.personastate := by
  unfold processBatch at hf
  cases hmr : make_request r with
  | error e => simp only [hmr] at hf; simp at hf
  | ok d =>
      simp only [hmr] at hf
      cases hp : d.players? with
      | none => simp only [hp] at hf; simp at hf
      | some pls =>
          simp only [hp] at hf
          simp only [List.mem_map, List.mem_filter] at hf
          obtain ⟨p, ⟨-, hpos⟩, rfl⟩ := hf
          simpa using hpos

theorem flatMap_range_eq_nil {α : Type} (k : Nat) (g : Nat → List α)
    (h : ∀ j < k, g j = []) : (List.range k).flatMap g = [] := by
  induction k with
  | zero => rfl
  | succ n ih =>
      rw [List.range_succ, List.flatMap_append,
        ih (fun j hj => h j (Nat.lt_succ_of_lt hj))]
      simp [h n (Nat.lt_succ_self n)]

/-- C6: with 250 friend ids the loop issues exactly 3 batch calls of
sizes 100, 100, 50; the batches partition the ids in order, each of size
at most 100; the result is the concatenation of the per-batch results in
batch order; a failed second batch is skipped while batches 1 and 3 are
kept; and every returned friend has presence state above 0. -/
theorem C6_batching (cl : SteamClient) (st : CacheState) (ids : List String)
    (bs : Nat → HttpResult SummariesPayload) (h250 : ids.length = 250) :
    numBatches ids.length = 3 ∧
    (chunks ids).map List.length = [100, 100, 50] ∧
    (chunks ids).flatten = ids ∧
    (∀ c ∈ chunks ids, c.length ≤ 100) ∧
    ((get_online_friends cl st (.status 200 ⟨some ids⟩) bs).1
      = processBatch (bs 0) ++ processBatch (bs 1) ++ processBatch (bs 2)) ∧
    (∀ e, make_request (bs 1) = .error e →
      (get_online_friends cl st (.status 200 ⟨some ids⟩) bs).1
        = processBatch (bs 0) ++ processBatch (bs 2)) ∧
    (∀ f ∈ (get_online_friends cl st (.status 200 ⟨some ids⟩) bs).1,
      0 < f.personastate) := by
  have hch : chunks ids = [ids.take 100, (ids.drop 100).take 100, (ids.drop 200).take 100] := by
    unfold chunks
    rw [h250]
    rfl
  have hmain : (get_online_friends cl st (.status 200 ⟨some ids⟩) bs).1
      = processBatch (bs 0) ++ processBatch (bs 1) ++ processBatch (bs 2) := by
    have hfl : get_friend_list cl (.status 200 ⟨some ids⟩) = .ok ⟨some ids⟩ := rfl
    obtain ⟨i, is, rfl⟩ : ∃ i is, ids = i :: is := by
      cases ids with
      | nil => simp at h250
      | cons i is => exact ⟨i, is, rfl⟩
    unfold get_online_friends
    rw [hfl]
    have hn : numBatches (i :: is).length = 3 := by rw [h250]; rfl
    simp only [hn]
    have hr : List.range 3 = [0, 1, 2] := rfl
    rw [hr]
    simp [List.append_assoc]
  refine ⟨by rw [h250]; rfl, ?_, ?_, ?_, hmain, ?_, ?_⟩
  · rw [hch]
    simp [List.length_take, List.length_drop, h250]
  · rw [hch]
    have h200 : ids.drop 200 = (ids.drop 100).drop 100 := by
      rw [List.drop_drop]
    have hlast : ((ids.drop 100).drop 100).take 100 = (ids.drop 100).drop 100 := by
      apply List.take_of_length_le
      simp [List.length_drop, h250]
    simp only [List.flatten, List.append_nil, h200, hlast]
    rw [List.take_append_drop, List.take_append_drop]
  · intro c hc
    rw [hch] at hc
    simp only [List.mem_cons, List.not_mem_nil, or_false] at hc
    rcases hc with rfl | rfl | rfl <;> apply List.length_take_le
  · intro e he
    have hb1 : processBatch (bs 1) = [] := by
      unfold processBatch
      rw [he]
    rw [hmain, hb1]
    simp
  · intro f hf
    rw [hmain] at hf
    simp only [List.mem_append] at hf
    rcases hf with (hf | hf) | hf <;> exact processBatch_pos _ f hf

/-- C9: when the friend-id list is non-empty and every per-batch summary
call fails, get_online_friends returns the empty list and overwrites the
friends cache entry with the empty list, whatever it held before. -/
theorem C9_all_batches_fail_overwrite (cl : SteamClient) (st : CacheState)
    (ids : List String) (bs : Nat → HttpResult SummariesPayload)
    (hne : ids ≠ [])
    (hfail : ∀ j < numBatches ids.length, ∃ e, make_request (bs j) = .error e) :
    get_online_friends cl st (.status 200 ⟨some ids⟩) bs
      = ([], { st with friends_data := some [] }) := by
  have hfl : get_friend_list cl (.status 200 ⟨some ids⟩) = .ok ⟨some ids⟩ := rfl
  obtain ⟨i, is, rfl⟩ : ∃ i is, ids = i :: is := by
    cases ids with
    | nil => exact absurd rfl hne
    | cons i is => exact ⟨i, is, rfl⟩
  have hall : (List.range (numBatches (i :: is).length)).flatMap
      (fun j => processBatch (bs j)) = [] := by
    apply flatMap_range_eq_nil
    intro j hj
    obtain ⟨e, he⟩ := hfail j hj
    unfold processBatch
    rw [he]
  unfold get_online_friends
  rw [hfl]
  simp only [hall]

/-- Witness for C9 at a concrete input: one friend id, the only batch
call failing with 503, a previously non-empty friends cache. -/
theorem C9_witness :
    ((["a"] : List String) ≠ []) ∧
    get_online_friends ⟨"k", "s"⟩ ⟨none, some [⟨"f1", "Ann", 1, none, none⟩], []⟩
        (.status 200 ⟨some ["a"]⟩) (fun _ => .status 503 ⟨none⟩)
      = ([], ⟨none, some [], []⟩) :=
  ⟨by simp,
   C9_all_batches_fail_overwrite ⟨"k", "s"⟩
     ⟨none, some [⟨"f1", "Ann", 1, none, none⟩], []⟩ ["a"]
     (fun _ => .status 503 ⟨none⟩) (by simp)
     (fun j hj =>
       ⟨⟨"Unexpected error: Steam servers temporarily unavailable (HTTP 503)"⟩, rfl⟩)⟩

end SteamVerify

namespace SteamVerify

/-- Witness for C6 at a concrete input: the 250 ids "0".."249". -/
theorem C6_witness :
    ((((List.range 250).map fun n => toString n)).length = 250) ∧
    numBatches (((List.range 250).map fun n => toString n)).length = 3 ∧
    (chunks ((List.range 250).map fun n => toString n)).map List.length
      = [100, 100, 50] :=
  have h : (((List.range 250).map fun n => toString n)).length = 250 := by simp
  ⟨h,
   (C6_batching ⟨"k", "s"⟩ initialCache ((List.range 250).map fun n => toString n)
      (fun _ => .status 503 ⟨none⟩) h).1,
   (C6_batching ⟨"k", "s"⟩ initialCache ((List.range 250).map fun n => toString n)
      (fun _ => .status 503 ⟨none⟩) h).2.1⟩

/-- C10: the data cache is module state shared across client instances:
after client A's successful poll, client B's polls that hit a 503, an
empty player list, or a malformed payload return A's cached result,
whereas without A's prior call they return the absent value — so B's
result is not independent of A's calls. -/
theorem C10_shared_cache_across_instances :
    clientA ≠ clientB ∧
    resultA ≠ (none, none) ∧
    ((get_currently_playing clientB stAfterA (.status 503 ⟨none⟩)).1 = resultA ∧
     (get_currently_playing clientB initialCache (.status 503 ⟨none⟩)).1 ≠ resultA) ∧
    ((get_currently_playing clientB stAfterA (.status 200 ⟨some []⟩)).1 = resultA ∧
     (get_currently_playing clientB initialCache (.status 200 ⟨some []⟩)).1 ≠ resultA) ∧
    ((get_currently_playing clientB stAfterA (.status 200 ⟨none⟩)).1 = resultA ∧
     (get_currently_playing clientB initialCache (.status 200 ⟨none⟩)).1 ≠ resultA) := by
  decide

end SteamVerify

namespace SteamVerify

/-- Witness for C1 at a concrete input: a populated playing cache and a
503 response. -/
theorem C1_witness :
    ((503 = 502 ∨ 503 = 503 ∨ 503 = 504) ∧
     (get_currently_playing ⟨"k", "s"⟩
        ⟨some (some ⟨"10", "Portal", 1⟩, some "u"), none, []⟩
        (.status 503 ⟨none⟩)).1 = (some ⟨"10", "Portal", 1⟩, some "u")) :=
  ⟨Or.inr (Or.inl rfl),
   (C1_transient_serves_cache ⟨"k", "s"⟩
      ⟨some (some ⟨"10", "Portal", 1⟩, some "u"), none, []⟩
      503 ⟨none⟩ ⟨none⟩ (fun _ => .status 503 ⟨none⟩)
      (Or.inr (Or.inl rfl))).1 _ rfl⟩

/-- Witness for C2 at a concrete input: a 401 (auth) failure on each
view, starting from the empty module state. -/
theorem C2_witness :
    ((get_currently_playing ⟨"k", "s"⟩ initialCache (.status 401 ⟨none⟩)).1
        = (none, none)) ∧
    ((get_online_friends ⟨"k", "s"⟩ initialCache (.status 401 ⟨none⟩)
        (fun _ => .status 401 ⟨none⟩)).1 = []) :=
  ⟨(C2_never_raises_degrades ⟨"k", "s"⟩ initialCache (.status 401 ⟨none⟩)
      (.status 401 ⟨none⟩) (fun _ => .status 401 ⟨none⟩)).2.2.1
      ⟨"Unexpected error: Invalid API key"⟩ rfl (Or.inl (by decide)),
   (C2_never_raises_degrades ⟨"k", "s"⟩ initialCache (.status 401 ⟨none⟩)
      (.status 401 ⟨none⟩) (fun _ => .status 401 ⟨none⟩)).2.2.2
      ⟨"Unexpected error: Invalid API key"⟩ rfl (Or.inl (by decide))⟩

end SteamVerify
